import Mathlib

/-!
Verification of the EDB console adapter (src/edb.py) against its
natural-language specification.

Conventions of the shallow embedding:
* Python strings are Lean `String`s; `str.startswith` is embedded via the
  character lists of the strings.
* Voltages are held in units of 10^-4 V (the resolution of the "%.4f"
  renderings used throughout src/edb.py); timestamps are integer
  microseconds (the resolution of "%.6f").  Fixed-point rendering at those
  resolutions is exact, so the format strings embed faithfully.
* Python exceptions become an error type `PyErr`; a function that can raise
  returns `Except PyErr _`.  `KeyboardInterrupt` (user cancellation of a
  blocking engine call) is represented explicitly where the code handles it.
* Calls into the external `pyedb` engine (`mon.*`) are recorded as data
  (call-description values) rather than executed; their results are supplied
  as parameters, since pyedb is an external package, not part of this
  repository.
-/

namespace EDBConsole

/-- Exception values the console code can raise synchronously. -/
inductive PyErr where
  | typeError
  | indexError
  | exception (msg : String)
deriving DecidableEq

/-- Left-pad a digit string with zeros to width `k`
(used to embed fixed-precision `%f` rendering). -/
def pad0 (k : Nat) (s : String) : String :=
  String.mk (List.replicate (k - s.length) '0') ++ s

/-- Fixed-point rendering of a nonnegative value held in units of `10^-d`:
embeds the Python format `%.df` at that resolution (src/edb.py uses
`%.6f` for timestamps, `%.4f` for voltages, `%.03f` for relative times). -/
def fmtFixed (d : Nat) (n : Nat) : String :=
  toString (n / 10 ^ d) ++ "." ++ pad0 d (toString (n % 10 ^ d))

/-- Embeds Python `s.startswith(pre)`. -/
def pyStartswith (s pre : String) : Bool :=
  pre.data.isPrefixOf s.data

/-- Embeds Python `s.upper()` (the keyword tables are ASCII). -/
def pyToUpper (s : String) : String :=
  String.mk (s.data.map Char.toUpper)

/-- Embeds Python `repr` (`%r`) of a simple string value. -/
def pyReprStr (s : String) : String :=
  "'" ++ s ++ "'"

/-- InterruptContext event decoded by pyedb (fields as used by src/edb.py:
`type` compared against "ASSERT"/"BOOT", integer `id`, optional `saved_vcap`). -/
structure InterruptContext where
  type : String
  id : Nat
  saved_vcap : Option Nat
deriving DecidableEq

/-- WatchpointEvent decoded by pyedb: integer `id`, `timestamp` (microseconds),
and `vcap`, which is optional — it is absent when the watchpoint was toggled
without vcap snapshotting. -/
structure WatchpointEvent where
  id : Nat
  timestamp : Nat
  vcap : Option Nat
deriving DecidableEq

/-- StdIOData event: relayed target console text with a timestamp. -/
structure StdIOData where
  timestamp : Nat
  string : String
deriving DecidableEq

/-- The trailing print of `print_interrupt_context` (src/edb.py:52-55):
the saved vcap line when present, a bare newline otherwise. -/
def saved_vcap_tail : Option Nat → List String
  | some v => ["Vcap_saved = " ++ fmtFixed 4 v ++ "\n"]
  | none => ["\n"]

/-- Embeds `print_interrupt_context` (src/edb.py:44-55) as the list of texts
passed to the successive `print` calls (`end=''` prints contribute their
payload, plain prints contribute a trailing newline). -/
def print_interrupt_context (c : InterruptContext) : List String :=
  ["Interrupted: " ++ pyReprStr c.type]
    ++ (if c.type = "ASSERT" then ["line: " ++ toString c.id]
        else if c.type = "BOOT" then []
        else ["id: " ++ toString c.id])
    ++ saved_vcap_tail c.saved_vcap

/-- Embeds `print_watchpoint_event` (src/edb.py:57-59).  The format string
`"Watchpoint: id: %r time: %.6f s Vcap = %.4f"` requires a real number for
`%.4f`, so an event whose `vcap` is `None` raises `TypeError` and nothing is
printed. -/
def print_watchpoint_event (e : WatchpointEvent) : Except PyErr String :=
  match e.vcap with
  | none => .error .typeError
  | some v =>
      .ok ("Watchpoint: id: " ++ toString e.id ++ " time: " ++ fmtFixed 6 e.timestamp
        ++ " s Vcap = " ++ fmtFixed 4 v ++ "\n")

/-- Embeds `init_watchpoint_log` (src/edb.py:61-62): the header row. -/
def init_watchpoint_log : String := "id,timestamp,vcap\n"

/-- Embeds `log_watchpoint_event` (src/edb.py:63-64).  The row format
`"%u,%.6f,%.4f\n"` requires a real number for `%.4f`, so an event whose
`vcap` is `None` raises `TypeError` and no row is written. -/
def log_watchpoint_event (e : WatchpointEvent) : Except PyErr String :=
  match e.vcap with
  | none => .error .typeError
  | some v =>
      .ok (toString e.id ++ "," ++ fmtFixed 6 e.timestamp ++ "," ++ fmtFixed 4 v ++ "\n")

/-- Loop body of `match_keyword` (src/edb.py:35-42), with the running `match`
variable made explicit: scans the keyword list; a word having `part` as a
prefix becomes the match, and finding a second such word raises
`Exception("Ambiguous keyword: " + part)` immediately. -/
def match_keyword_loop (part : String) : List String → Option String → Except PyErr (Option String)
  | [], m => .ok m
  | w :: ws, m =>
      if pyStartswith w part then
        match m with
        | some _ => .error (.exception ("Ambiguous keyword: " ++ part))
        | none => match_keyword_loop part ws (some w)
      else
        match_keyword_loop part ws m

/-- Embeds `match_keyword` (src/edb.py:35-42).  Note the result is an
`Option`: when no keyword has `part` as a prefix the function returns `None`
rather than raising. -/
def match_keyword (part : String) (words : List String) : Except PyErr (Option String) :=
  match_keyword_loop part words none

/-- The argument record passed to the engine call
`mon.toggle_breakpoint(type, idx, enable, energy_level)` (src/edb.py:162). -/
structure ToggleBreakpointCall where
  type : Option String
  idx : Int
  enable : Bool
  energy_level : Option Nat
deriving DecidableEq

/-- The argument record passed to the engine call
`mon.toggle_watchpoint(idx, enable, vcap_snapshot)` (src/edb.py:168). -/
structure ToggleWatchpointCall where
  idx : Int
  enable : Bool
  vcap_snapshot : Bool
deriving DecidableEq

/-- Embeds `cmd_break` (src/edb.py:157-162).  `bpTypes` stands for
`edb.host_comm_header.enums['BREAKPOINT_TYPE'].keys()`, the shared
breakpoint-type enumeration supplied by the external pyedb package.  The
numeric token conversions `int(idx)` / `float(energy_level)` are taken as
already performed.  Returns the `toggle_breakpoint` call handed to the
engine, or the error raised before any engine call. -/
def cmd_break (bpTypes : List String) (ty : String) (idx : Int) (op : String)
    (energy_level : Option Nat) : Except PyErr ToggleBreakpointCall :=
  let enable := pyStartswith "enable" op
  match match_keyword (pyToUpper ty) bpTypes with
  | .error e => .error e
  | .ok t => .ok { type := t, idx := idx, enable := enable, energy_level := energy_level }

/-- Embeds `cmd_watch` (src/edb.py:164-168); `vcap_snapshot` defaults to
"novcap" at the call site.  Returns the `toggle_watchpoint` call handed to
the engine. -/
def cmd_watch (idx : Int) (op : String) (vcap_snapshot : String) : ToggleWatchpointCall :=
  { idx := idx
    enable := pyStartswith "enable" op
    vcap_snapshot := pyStartswith "vcap" vcap_snapshot }

/-- Embeds `cmd_uart` (src/edb.py:250-252): the boolean `enable` argument
passed to `mon.enable_target_uart`. -/
def cmd_uart (op : String) : Bool :=
  pyStartswith "enable" op

/-- Embeds `cmd_payload` (src/edb.py:254-256): the boolean `enable` argument
passed to `mon.enable_periodic_payload`. -/
def cmd_payload (op : String) : Bool :=
  pyStartswith "enable" op

/-- Voltage-control engine calls made by the charge/discharge commands. -/
inductive ChargerCall where
  | charge (target : Nat)
  | charge_cmp (target : Nat)
  | discharge (target : Nat)
  | discharge_cmp (target : Nat)
deriving DecidableEq

/-- Embeds `cmd_charge` (src/edb.py:115-123).  `engine_vcap` is the value
`mon.charge(target_voltage)` returns when it is invoked (ADC method).
Returns the engine call made together with the lines printed, or the raised
error — in which case no engine call occurs (the `else` branch raises before
touching `mon`). -/
def cmd_charge (engine_vcap : Nat) (target_voltage : Nat) (method : String) :
    Except PyErr (ChargerCall × List String) :=
  if method = "adc" then
    .ok (.charge target_voltage, ["Vcap = " ++ fmtFixed 4 engine_vcap ++ "\n"])
  else if method = "cmp" then
    .ok (.charge_cmp target_voltage, [])
  else
    .error (.exception ("Invalid charger method: " ++ method))

/-- Embeds `cmd_discharge` (src/edb.py:125-133), mirror of `cmd_charge`. -/
def cmd_discharge (engine_vcap : Nat) (target_voltage : Nat) (method : String) :
    Except PyErr (ChargerCall × List String) :=
  if method = "adc" then
    .ok (.discharge target_voltage, ["Vcap = " ++ fmtFixed 4 engine_vcap ++ "\n"])
  else if method = "cmp" then
    .ok (.discharge_cmp target_voltage, [])
  else
    .error (.exception ("Invalid charger method: " ++ method))

/-- How a blocking call to `mon.interrupt()` can end: returning the saved
vcap, being cancelled by the user (`KeyboardInterrupt`), or raising some
other error that propagates. -/
inductive InterruptOutcome where
  | success (saved_vcap : Nat)
  | cancelled
  | failure (e : PyErr)
deriving DecidableEq

/-- Result of `cmd_int`: the session mode flag after the call, the lines
printed, and the error that propagated, if any. -/
structure CmdIntResult where
  active_mode : Bool
  printed : List String
  raised : Option PyErr
deriving DecidableEq

/-- Embeds `cmd_int` (src/edb.py:135-142): `try` around `mon.interrupt()`;
on success the saved vcap is printed and `active_mode` is set afterwards;
`except KeyboardInterrupt: pass` absorbs cancellation; any other error
propagates.  `active_mode` is the global flag before the call. -/
def cmd_int (outcome : InterruptOutcome) (active_mode : Bool) : CmdIntResult :=
  match outcome with
  | .success v => { active_mode := true, printed := ["Vcap_saved = " ++ fmtFixed 4 v ++ "\n"], raised := none }
  | .cancelled => { active_mode := active_mode, printed := [], raised := none }
  | .failure e => { active_mode := active_mode, printed := [], raised := some e }

/-- Arguments handed to the engine call `mon.stream(...)` after `do_stream`
normalizes them (src/edb.py:88-105): stream names upper-cased, `"-"` duration
meaning indefinite, `silent` set exactly when the destination is stdout. -/
structure StreamArgs where
  streams : List String
  indefinite : Bool
  silent : Bool
  no_parse : Bool
deriving DecidableEq

/-- How the blocking `mon.stream(...)` call can end.  Each constructor
carries the records the engine had already written to the destination sink
when the call ended (the engine writes whole records; pyedb is external). -/
inductive StreamOutcome where
  | completed (writes : List String)
  | cancelledByUser (writes : List String)
  | failure (writes : List String) (e : PyErr)

/-- Result of `do_stream`: the normalized engine arguments, the destination
sink contents, and the error that propagated, if any. -/
structure StreamResult where
  args : StreamArgs
  sink : List String
  raised : Option PyErr

/-- Embeds `do_stream` (src/edb.py:88-107), the body shared by `cmd_stream`
and `cmd_streamnp`: argument normalization followed by `mon.stream(...)`
inside `try ... except KeyboardInterrupt: pass` — user cancellation is a
clean termination, anything else propagates.  `run` summarizes the external
engine call; the numeric value of a non-"-" duration is not inspected by
this adapter beyond `float()` conversion and is not modelled. -/
def do_stream (out_file : String) (duration_sec : String) (streams : List String)
    (no_parse : Bool) (run : StreamArgs → StreamOutcome) : StreamResult :=
  let args : StreamArgs :=
    { streams := streams.map String.toUpper
      indefinite := duration_sec == "-"
      silent := out_file == "-"
      no_parse := no_parse }
  match run args with
  | .completed w => { args := args, sink := w, raised := none }
  | .cancelledByUser w => { args := args, sink := w, raised := none }
  | .failure w e => { args := args, sink := w, raised := some e }

/-- One decoded event returned by a `mon.wait()` call, as discriminated by
the `isinstance` tests in `cmd_wait` (src/edb.py:185-200). -/
inductive Event where
  | interrupt_context (c : InterruptContext)
  | watchpoint_event (e : WatchpointEvent)
  | std_out_data (d : StdIOData)
  | energy_profile (timestamp : Nat) (profile : String)
deriving DecidableEq

/-- One observable effect of the `cmd_wait` loop. -/
inductive Action where
  | printed (s : String)
  | logged (row : String)
  | console_write (s : String)
deriving DecidableEq

/-- Millisecond value rendered by `"%.03f"` for a microsecond duration
(ties rounded up; the sub-resolution rounding mode is immaterial to the
claims). -/
def msOf (us : Nat) : Nat := (us + 500) / 1000

/-- The `StdIOData` branch of `cmd_wait` (src/edb.py:193-198): writes the
relative-timestamp prefix and the relayed string, then evaluates
`event.string[-1]` — which raises `IndexError` on an empty string, after the
first two writes — and appends a newline when the last character is not a
newline. -/
def std_io_branch (stamp s : String) : List String × Option PyErr :=
  match s.data.getLast? with
  | none => ([stamp, s], some .indexError)
  | some c => if c = '\n' then ([stamp, s], none) else ([stamp, s, "\n"], none)

/-- Result of the `cmd_wait` loop over a finite prefix of events: the
actions performed, the session mode flag, whether the loop broke at an
`InterruptContext`, and the error that escaped the loop, if any. -/
structure WaitResult where
  actions : List Action
  active_mode : Bool
  halted : Bool
  raised : Option PyErr
deriving DecidableEq

/-- The `while True` event loop of `cmd_wait` (src/edb.py:181-200), run over
a finite list of events returned by successive `mon.wait()` calls.
`use_log` says a log file was given; `t0` is `start_time`; `active_mode` the
global flag on entry.  An `InterruptContext` is printed, sets the flag and
breaks; a `WatchpointEvent` is printed and (when logging) logged — both
raise `TypeError` when its vcap is absent; `StdIOData` goes to the console
sink; `EnergyProfile` is printed.  If the list is exhausted first, the real
loop is still blocked in `mon.wait()` (`halted := false`, no error). -/
def cmd_wait_loop (use_log : Bool) (t0 : Nat) (active_mode : Bool) :
    List Event → WaitResult
  | [] => { actions := [], active_mode := active_mode, halted := false, raised := none }
  | ev :: rest =>
      match ev with
      | .interrupt_context c =>
          { actions := (print_interrupt_context c).map .printed
            active_mode := true, halted := true, raised := none }
      | .watchpoint_event e =>
          match print_watchpoint_event e with
          | .error er =>
              { actions := [], active_mode := active_mode, halted := false, raised := some er }
          | .ok line =>
              if use_log then
                match log_watchpoint_event e with
                | .error er =>
                    { actions := [.printed line], active_mode := active_mode
                      halted := false, raised := some er }
                | .ok row =>
                    let r := cmd_wait_loop use_log t0 active_mode rest
                    { actions := .printed line :: .logged row :: r.actions
                      active_mode := r.active_mode, halted := r.halted, raised := r.raised }
              else
                let r := cmd_wait_loop use_log t0 active_mode rest
                { actions := .printed line :: r.actions
                  active_mode := r.active_mode, halted := r.halted, raised := r.raised }
      | .std_out_data d =>
          let wr := std_io_branch (fmtFixed 3 (msOf (d.timestamp - t0)) ++ ": ") d.string
          match wr.2 with
          | some er =>
              { actions := wr.1.map .console_write, active_mode := active_mode
                halted := false, raised := some er }
          | none =>
              let r := cmd_wait_loop use_log t0 active_mode rest
              { actions := wr.1.map .console_write ++ r.actions
                active_mode := r.active_mode, halted := r.halted, raised := r.raised }
      | .energy_profile ts p =>
          let r := cmd_wait_loop use_log t0 active_mode rest
          { actions := .printed (fmtFixed 3 (msOf (ts - t0)) ++ ": " ++ pyReprStr p ++ "\n")
              :: r.actions
            active_mode := r.active_mode, halted := r.halted, raised := r.raised }

/-- Embeds `cmd_wait` (src/edb.py:170-203): when a log file is given its
header row is written first, then the event loop runs. -/
def cmd_wait (use_log : Bool) (t0 : Nat) (active_mode : Bool) (events : List Event) :
    WaitResult :=
  let r := cmd_wait_loop use_log t0 active_mode events
  { actions := (if use_log then [Action.logged init_watchpoint_log] else []) ++ r.actions
    active_mode := r.active_mode, halted := r.halted, raised := r.raised }

/-- Outcome of dispatching and executing one command string of a line
(tokenizing, the `globals()` lookup, and the `cmd_*` body): success, or an
`Exception`-derived error.  `KeyboardInterrupt` is an asynchronous signal,
outside this synchronous model. -/
inductive ExecOutcome where
  | ok
  | exc (e : PyErr)
deriving DecidableEq

/-- One interaction at the `input()` prompt of the main loop:
end-of-input (`EOFError`), `KeyboardInterrupt` at the prompt, or an entered
line. -/
inductive InputLine where
  | eof
  | interrupted
  | entered (s : String)
deriving DecidableEq

/-- Observable output of the main loop other than command output: the bare
newline printed on EOF or prompt interrupt, and the exception type plus
traceback printed when a command raises. -/
inductive LoopOut where
  | newline
  | traceback (e : PyErr)
deriving DecidableEq

/-- Why (or whether) the main loop stopped. -/
inductive ExitReason where
  | eof_exit
  | once_exit
  | pending_input
deriving DecidableEq

/-- The `for cmd_line in cmd_lines` body inside `try` (src/edb.py:292-300):
executes the semicolon-separated commands in order; the first error aborts
the rest of the line and is caught by `except Exception`, which prints the
exception type and the traceback, after which the loop continues. -/
def run_cmd_lines (run : String → ExecOutcome) : List String → List LoopOut
  | [] => []
  | c :: cs =>
      match run c with
      | .ok => run_cmd_lines run cs
      | .exc e => [.traceback e]

/-- Processing of one read line (src/edb.py:286-300): strip, skip blank
lines and `#` comments, otherwise split on `;` and run the commands under
the `except Exception` handler. -/
def process_line (run : String → ExecOutcome) (line : String) : List LoopOut :=
  let l := line.trim
  if l = "" then []
  else if l.startsWith "#" then []
  else run_cmd_lines run (l.splitOn ";")

/-- The interactive arm of the `while True` main loop (src/edb.py:270-303)
when no `--command` was given, run over a finite prefix of prompt
interactions: EOF prints a newline and exits; `KeyboardInterrupt` at the
prompt prints a newline and continues; an entered line is processed (all
command errors caught) and the loop continues.  An exhausted list means the
loop is blocked reading the next line. -/
def main_loop_reads (run : String → ExecOutcome) :
    List InputLine → List LoopOut × ExitReason
  | [] => ([], .pending_input)
  | .eof :: _ => ([.newline], .eof_exit)
  | .interrupted :: rest =>
      let r := main_loop_reads run rest
      (.newline :: r.1, r.2)
  | .entered s :: rest =>
      let r := main_loop_reads run rest
      (process_line run s ++ r.1, r.2)

/-- Embeds the main loop (src/edb.py:270-303): with `--command` the single
supplied line is processed (errors still caught and printed) and the loop
breaks; otherwise lines are read interactively. -/
def main_loop (run : String → ExecOutcome) (command : Option String)
    (inputs : List InputLine) : List LoopOut × ExitReason :=
  match command with
  | some c => (process_line run c, .once_exit)
  | none => main_loop_reads run inputs

/-! ## Helper lemmas -/

/-- If the `match_keyword` scan returns a keyword, it is the running match it
started from or a list member having `part` as a prefix. -/
theorem match_keyword_loop_ok_some (part w : String) :
    ∀ (ws : List String) (m : Option String),
      match_keyword_loop part ws m = .ok (some w) →
      m = some w ∨ (w ∈ ws ∧ pyStartswith w part = true) := by
  intro ws
  induction ws with
  | nil =>
      intro m h
      left
      exact (by simpa [match_keyword_loop] using h : m = some w)
  | cons w' ws ih =>
      intro m h
      by_cases hp : pyStartswith w' part = true
      · match m with
        | some u => simp [match_keyword_loop, hp] at h
        | none =>
            simp only [match_keyword_loop, hp, if_true] at h
            rcases ih (some w') h with h1 | h2
            · right
              exact ⟨by simp [Option.some.inj h1], Option.some.inj h1 ▸ hp⟩
            · right
              exact ⟨List.mem_cons_of_mem _ h2.1, h2.2⟩
      · simp only [match_keyword_loop, hp, if_false] at h
        rcases ih m h with h1 | h2
        · left; exact h1
        · right; exact ⟨List.mem_cons_of_mem _ h2.1, h2.2⟩

/-- The `match_keyword` scan raises `Ambiguous keyword` as soon as a second
match appears: it errors whenever a match is already in hand and the list
holds one more, or the list holds at least two. -/
theorem match_keyword_loop_ambiguous (part : String) :
    ∀ (ws : List String) (m : Option String),
      ((m.isSome = true ∧ 1 ≤ ws.countP (fun w => pyStartswith w part))
        ∨ 2 ≤ ws.countP (fun w => pyStartswith w part)) →
      match_keyword_loop part ws m =
        .error (.exception ("Ambiguous keyword: " ++ part)) := by
  intro ws
  induction ws with
  | nil =>
      intro m h
      rcases h with ⟨_, h1⟩ | h2
      · rw [List.countP_nil] at h1; omega
      · rw [List.countP_nil] at h2; omega
  | cons w' ws ih =>
      intro m h
      by_cases hp : pyStartswith w' part = true
      · match m with
        | some u => simp [match_keyword_loop, hp]
        | none =>
            simp only [match_keyword_loop, hp, if_true]
            apply ih (some w')
            simp only [List.countP_cons, hp, if_true] at h
            rcases h with ⟨hs, _⟩ | h2
            · exact absurd hs (by simp)
            · left
              refine ⟨rfl, ?_⟩
              omega
      · simp only [match_keyword_loop, hp, if_false]
        apply ih m
        simp only [Bool.not_eq_true] at hp
        simpa [List.countP_cons, hp] using h

/-- Field content of a successful `cmd_break`: the enable flag is the strict
boolean `"enable".startswith(op)`, the index and energy level pass through,
and a resolved type is a member of the enumeration having the upper-cased
abbreviation as a prefix. -/
theorem cmd_break_ok_fields (bpTypes : List String) (ty : String) (idx : Int)
    (op : String) (el : Option Nat) (c : ToggleBreakpointCall)
    (h : cmd_break bpTypes ty idx op el = .ok c) :
    c.enable = pyStartswith "enable" op
    ∧ c.idx = idx ∧ c.energy_level = el
    ∧ (∀ w, c.type = some w → w ∈ bpTypes ∧ pyStartswith w (pyToUpper ty) = true) := by
  unfold cmd_break at h
  rcases hm : match_keyword (pyToUpper ty) bpTypes with e | t
  · rw [hm] at h; exact absurd h (by simp)
  · rw [hm] at h
    simp only [Except.ok.injEq] at h
    subst h
    refine ⟨rfl, rfl, rfl, fun w hw => ?_⟩
    simp only at hw
    subst hw
    rcases match_keyword_loop_ok_some (pyToUpper ty) w bpTypes none hm with h1 | h2
    · exact absurd h1 (by simp)
    · exact h2

/-! ## Claim theorems -/

/-- C1: the claim says a `WatchpointEvent` whose optional vcap is absent is
logged with a blank vcap field and logging succeeds.  On the code, the row
format `"%u,%.6f,%.4f\n"` raises `TypeError` at such an event and no row is
written; the header row and the shape of rows for sampled events are as
specified. -/
theorem c1_log_watchpoint_event_unsampled_raises :
    log_watchpoint_event { id := 3, timestamp := 5000, vcap := none } =
      .error .typeError
    ∧ init_watchpoint_log = "id,timestamp,vcap\n"
    ∧ log_watchpoint_event { id := 3, timestamp := 5000, vcap := some 19800 } =
        .ok "3,0.005000,1.9800\n" :=
  ⟨rfl, rfl, rfl⟩

/-- C2: the claim says every event returned by `wait()` is handled in
arrival order up to the first `InterruptContext`, after which `active_mode`
is `True`.  On the code, a `WatchpointEvent` whose vcap was not sampled
makes `print_watchpoint_event` raise `TypeError`: the loop aborts, the
following `InterruptContext` is never handled, and `active_mode` stays
`False`. -/
theorem c2_cmd_wait_unsampled_watchpoint_aborts :
    cmd_wait false 0 false
      [.watchpoint_event { id := 3, timestamp := 5000, vcap := none },
       .interrupt_context { type := "ASSERT", id := 42, saved_vcap := some 21000 }] =
      { actions := [], active_mode := false, halted := false, raised := some .typeError } :=
  rfl

/-- C3: cancelling `cmd_int` while `mon.interrupt()` blocks leaves the
session mode flag exactly as it was (nothing printed, nothing raised), and
after `cmd_int` the flag is set if and only if it was already set or
`interrupt()` returned a saved vcap successfully. -/
theorem c3_cmd_int_cancellation_preserves_mode :
    ∀ (am : Bool) (o : InterruptOutcome),
      cmd_int .cancelled am = { active_mode := am, printed := [], raised := none }
      ∧ ((cmd_int o am).active_mode = true ↔ (am = true ∨ ∃ v, o = .success v)) := by
  intro am o
  refine ⟨rfl, ?_⟩
  cases o <;> simp [cmd_int]

/-- C4: when `mon.stream` ends by user cancellation mid-stream, `do_stream`
absorbs the `KeyboardInterrupt` (nothing propagates) and the destination
sink holds exactly the records the engine had already written — the adapter
neither drops nor alters them. -/
theorem c4_do_stream_cancellation_clean :
    ∀ (out_file duration_sec : String) (streams : List String) (np : Bool)
      (w : List String),
      (do_stream out_file duration_sec streams np (fun _ => .cancelledByUser w)).sink = w
      ∧ (do_stream out_file duration_sec streams np (fun _ => .cancelledByUser w)).raised =
          none := by
  intro _ _ _ _ _
  exact ⟨rfl, rfl⟩

/-- C5: for charge and discharge, method "adc" invokes the ADC engine
operation and prints the final vcap the engine returned; method "cmp" arms
the comparator strategy and prints no vcap; any other method string raises
`Invalid charger method` and no engine operation is invoked (the result is
an error carrying no engine call). -/
theorem c5_charge_discharge_methods :
    ∀ (v tv : Nat) (m : String),
      cmd_charge v tv "adc" = .ok (.charge tv, ["Vcap = " ++ fmtFixed 4 v ++ "\n"])
      ∧ cmd_discharge v tv "adc" = .ok (.discharge tv, ["Vcap = " ++ fmtFixed 4 v ++ "\n"])
      ∧ cmd_charge v tv "cmp" = .ok (.charge_cmp tv, [])
      ∧ cmd_discharge v tv "cmp" = .ok (.discharge_cmp tv, [])
      ∧ (m ≠ "adc" → m ≠ "cmp" →
          cmd_charge v tv m = .error (.exception ("Invalid charger method: " ++ m))
          ∧ cmd_discharge v tv m = .error (.exception ("Invalid charger method: " ++ m))) := by
  intro v tv m
  refine ⟨rfl, rfl, rfl, rfl, fun h1 h2 => ⟨?_, ?_⟩⟩
  · simp [cmd_charge, h1, h2]
  · simp [cmd_discharge, h1, h2]

/-- C5 witness: evaluating the charge command at method "adc" and at the
invalid method "foo". -/
theorem c5_charge_discharge_methods_witness :
    cmd_charge 21000 25000 "adc" = .ok (.charge 25000, ["Vcap = " ++ fmtFixed 4 21000 ++ "\n"])
    ∧ cmd_charge 21000 25000 "foo" = .error (.exception ("Invalid charger method: " ++ "foo")) :=
  ⟨(c5_charge_discharge_methods 21000 25000 "foo").1,
   ((c5_charge_discharge_methods 21000 25000 "foo").2.2.2.2 (by decide) (by decide)).1⟩

/-- C6 counterexample: with the breakpoint-type enumeration
{CODE, ENERGY_LEVEL} and the abbreviation "xyz" (upper-cased "XYZ") matching
no keyword, `match_keyword` yields `None` and `cmd_break` still invokes the
engine's `toggle_breakpoint` — with `None` as the type argument, not a full
keyword of the enumeration, refuting the claim that every call is preceded
by resolution to a full keyword. -/
theorem c6_cmd_break_unmatched_abbreviation :
    cmd_break ["CODE", "ENERGY_LEVEL"] "xyz" 0 "e" none =
      .ok { type := none, idx := 0, enable := true, energy_level := none } :=
  rfl

/-- C6 amended: partial-keyword resolution happens in the adapter before the
engine call: when `cmd_break` reaches the engine, the enable argument is the
strict boolean `"enable".startswith(op)` (never the raw string), and a
resolved type is a full keyword of the enumeration having the upper-cased
abbreviation as a prefix; when the abbreviation prefixes two or more
keywords, an `Ambiguous keyword` error is raised and the engine is not
called; but an abbreviation matching no keyword resolves to `None`, which is
passed to the engine rather than raising. -/
theorem c6_cmd_break_keyword_resolution :
    ∀ (bpTypes : List String) (ty : String) (idx : Int) (op : String)
      (el : Option Nat) (c : ToggleBreakpointCall),
      (cmd_break bpTypes ty idx op el = .ok c →
        c.enable = pyStartswith "enable" op
        ∧ (∀ w, c.type = some w → w ∈ bpTypes ∧ pyStartswith w (pyToUpper ty) = true))
      ∧ (2 ≤ bpTypes.countP (fun w => pyStartswith w (pyToUpper ty)) →
          cmd_break bpTypes ty idx op el =
            .error (.exception ("Ambiguous keyword: " ++ pyToUpper ty))) := by
  intro bpTypes ty idx op el c
  constructor
  · intro h
    exact ⟨(cmd_break_ok_fields bpTypes ty idx op el c h).1,
           (cmd_break_ok_fields bpTypes ty idx op el c h).2.2.2⟩
  · intro h2
    unfold cmd_break
    rw [show match_keyword (pyToUpper ty) bpTypes =
          .error (.exception ("Ambiguous keyword: " ++ pyToUpper ty)) from
        match_keyword_loop_ambiguous (pyToUpper ty) bpTypes none (Or.inr h2)]

/-- C6 witness: the abbreviation "c" resolves to the full keyword CODE of
{CODE, ENERGY_LEVEL}; the empty abbreviation prefixes both keywords and
raises the ambiguity error. -/
theorem c6_cmd_break_keyword_resolution_witness :
    ("CODE" ∈ ["CODE", "ENERGY_LEVEL"] ∧ pyStartswith "CODE" (pyToUpper "c") = true)
    ∧ cmd_break ["CODE", "ENERGY_LEVEL"] "" 1 "en" none =
        .error (.exception ("Ambiguous keyword: " ++ pyToUpper "")) :=
  ⟨((c6_cmd_break_keyword_resolution ["CODE", "ENERGY_LEVEL"] "c" 1 "en" none
      { type := some "CODE", idx := 1, enable := true, energy_level := none }).1
      rfl).2 "CODE" rfl,
   (c6_cmd_break_keyword_resolution ["CODE", "ENERGY_LEVEL"] "" 1 "en" none
      { type := none, idx := 1, enable := true, energy_level := none }).2 (by decide)⟩

/-- C7: `print_interrupt_context` reports the id as a line number for type
ASSERT, reports no id for type BOOT, reports it as a breakpoint/event id for
every other type, and ends with the saved-vcap line exactly when the
optional saved vcap is present (a bare newline otherwise). -/
theorem c7_print_interrupt_context_branches :
    ∀ (c : InterruptContext),
      (c.type = "ASSERT" →
        print_interrupt_context c =
          ["Interrupted: " ++ pyReprStr c.type, "line: " ++ toString c.id]
            ++ saved_vcap_tail c.saved_vcap)
      ∧ (c.type = "BOOT" →
        print_interrupt_context c =
          ["Interrupted: " ++ pyReprStr c.type] ++ saved_vcap_tail c.saved_vcap)
      ∧ (c.type ≠ "ASSERT" → c.type ≠ "BOOT" →
        print_interrupt_context c =
          ["Interrupted: " ++ pyReprStr c.type, "id: " ++ toString c.id]
            ++ saved_vcap_tail c.saved_vcap)
      ∧ (∀ v, saved_vcap_tail (some v) = ["Vcap_saved = " ++ fmtFixed 4 v ++ "\n"])
      ∧ saved_vcap_tail none = ["\n"] := by
  intro c
  refine ⟨fun h => ?_, fun h => ?_, fun h1 h2 => ?_, fun v => rfl, rfl⟩
  · simp [print_interrupt_context, h]
  · simp [print_interrupt_context, h]
  · simp [print_interrupt_context, h1, h2]

/-- C7 witness: the three report shapes at concrete interrupt contexts. -/
theorem c7_print_interrupt_context_witness :
    print_interrupt_context { type := "ASSERT", id := 42, saved_vcap := some 21000 } =
      ["Interrupted: 'ASSERT'", "line: 42", "Vcap_saved = 2.1000\n"]
    ∧ print_interrupt_context { type := "BOOT", id := 0, saved_vcap := none } =
      ["Interrupted: 'BOOT'", "\n"]
    ∧ print_interrupt_context { type := "WDT", id := 7, saved_vcap := none } =
      ["Interrupted: 'WDT'", "id: 7", "\n"] :=
  ⟨Eq.trans ((c7_print_interrupt_context_branches
      { type := "ASSERT", id := 42, saved_vcap := some 21000 }).1 rfl) rfl,
   Eq.trans ((c7_print_interrupt_context_branches
      { type := "BOOT", id := 0, saved_vcap := none }).2.1 rfl) rfl,
   Eq.trans ((c7_print_interrupt_context_branches
      { type := "WDT", id := 7, saved_vcap := none }).2.2.1 (by decide) (by decide)) rfl⟩

/-- C8: in the break, watch, uart and payload commands the computed enable
argument is true exactly when `op` is a string prefix of "enable" (so the
empty string and "e" select enable); every other `op` yields `false`
(disable) with no error raised from the `op` argument — in particular a
successful `cmd_break` carries that same boolean. -/
theorem c8_enable_argument_prefix_semantics :
    ∀ (op vs ty : String) (bpTypes : List String) (idx : Int) (el : Option Nat)
      (c : ToggleBreakpointCall),
      (cmd_uart op = true ↔ op.data <+: "enable".data)
      ∧ (cmd_payload op = true ↔ op.data <+: "enable".data)
      ∧ ((cmd_watch idx op vs).enable = true ↔ op.data <+: "enable".data)
      ∧ (cmd_break bpTypes ty idx op el = .ok c →
          (c.enable = true ↔ op.data <+: "enable".data)) := by
  intro op vs ty bpTypes idx el c
  have base : pyStartswith "enable" op = true ↔ op.data <+: "enable".data :=
    List.isPrefixOf_iff_prefix
  refine ⟨base, base, base, fun h => ?_⟩
  rw [(cmd_break_ok_fields bpTypes ty idx op el c h).1]
  exact base

/-- C8 witness: `""` and `"e"` select enable; the misspelling "enbale"
silently selects disable; a successful `cmd_break` with op "e" enables. -/
theorem c8_enable_argument_prefix_witness :
    cmd_uart "" = true ∧ cmd_uart "e" = true ∧ cmd_uart "enbale" = false
    ∧ (cmd_watch 2 "dis" "vcap").enable = false
    ∧ ToggleBreakpointCall.enable
        { type := some "CODE", idx := 0, enable := true, energy_level := none } = true := by
  have h1 := (c8_enable_argument_prefix_semantics "" "" "" [] 0 none
    { type := none, idx := 0, enable := true, energy_level := none }).1
  have h2 := (c8_enable_argument_prefix_semantics "e" "" "" [] 0 none
    { type := none, idx := 0, enable := true, energy_level := none }).1
  have h3 := (c8_enable_argument_prefix_semantics "enbale" "" "" [] 0 none
    { type := none, idx := 0, enable := true, energy_level := none }).1
  have h4 := (c8_enable_argument_prefix_semantics "dis" "vcap" "" [] 2 none
    { type := none, idx := 0, enable := true, energy_level := none }).2.2.1
  have h5 := (c8_enable_argument_prefix_semantics "e" "" "c" ["CODE"] 0 none
    { type := some "CODE", idx := 0, enable := true, energy_level := none }).2.2.2 rfl
  refine ⟨h1.mpr (by decide), h2.mpr (by decide), ?_, ?_, h5.mpr (by decide)⟩
  · cases hb : cmd_uart "enbale"
    · rfl
    · exact absurd (h3.mp hb) (by decide)
  · cases hb : (cmd_watch 2 "dis" "vcap").enable
    · rfl
    · exact absurd (h4.mp hb) (by decide)

/-- C9: the read-eval loop never terminates because a command failed: an
entered line is processed and the loop goes on regardless of its outcome; a
command whose dispatch/execution raises has its exception type and traceback
printed (aborting only the rest of that one line); the interactive loop
stops only at end-of-input (or is still waiting for input), and with
`--command` it stops after that single line whatever happened. -/
theorem c9_loop_error_resilience :
    ∀ (run : String → ExecOutcome) (inputs rest : List InputLine) (s c : String)
      (e : PyErr) (cs : List String),
      (main_loop_reads run (.entered s :: rest) =
        (process_line run s ++ (main_loop_reads run rest).1, (main_loop_reads run rest).2))
      ∧ ((main_loop_reads run inputs).2 = .eof_exit ∨
          (main_loop_reads run inputs).2 = .pending_input)
      ∧ ((main_loop_reads run inputs).2 = .eof_exit ↔ .eof ∈ inputs)
      ∧ (run c = .exc e → run_cmd_lines run (c :: cs) = [.traceback e])
      ∧ (main_loop run (some c) inputs).2 = .once_exit := by
  intro run inputs rest s c e cs
  refine ⟨rfl, ?_, ?_, fun h => by simp [run_cmd_lines, h], rfl⟩
  · induction inputs with
    | nil => right; rfl
    | cons i rest2 ih =>
        cases i with
        | eof => left; rfl
        | interrupted => simpa [main_loop_reads] using ih
        | entered s2 => simpa [main_loop_reads] using ih
  · induction inputs with
    | nil => simp [main_loop_reads]
    | cons i rest2 ih =>
        cases i with
        | eof => simp [main_loop_reads]
        | interrupted => simpa [main_loop_reads] using ih
        | entered s2 => simpa [main_loop_reads] using ih

/-- C9 witness: a dispatcher whose every command raises still yields a
printed traceback and, under `--command`, a single-command exit. -/
theorem c9_loop_error_resilience_witness :
    run_cmd_lines (fun _ => ExecOutcome.exc (.exception "boom")) ["int", "read"] =
      [.traceback (.exception "boom")]
    ∧ (main_loop (fun _ => ExecOutcome.exc (.exception "boom")) (some "int") []).2 =
        .once_exit :=
  ⟨(c9_loop_error_resilience (fun _ => .exc (.exception "boom")) [] [] "" "int"
      (.exception "boom") ["read"]).2.2.2.1 rfl,
   (c9_loop_error_resilience (fun _ => .exc (.exception "boom")) [] [] "" "int"
      (.exception "boom") ["read"]).2.2.2.2⟩

/-- Auxiliary: prepending an element keeps a known last element. -/
theorem getLast?_cons_some {α : Type} (y : α) {l : List α} {a : α}
    (h : l.getLast? = some a) : (y :: l).getLast? = some a := by
  cases l with
  | nil => simp at h
  | cons b t => rw [List.getLast?_cons_cons]; exact h

/-- C10: the StdIOData branch of `cmd_wait` indexes `event.string[-1]`, so
it is defined only for a non-empty relayed string — on the empty string it
raises `IndexError`.  For a non-empty string no error is raised and the text
written to the console sink is the relative-timestamp prefix followed by the
string, ending in a newline, with one appended exactly when the string does
not already end in `'\n'`. -/
theorem c10_std_io_branch_newline_terminated :
    ∀ (t0 ts : Nat) (s : String),
      (s = "" →
        (std_io_branch (fmtFixed 3 (msOf (ts - t0)) ++ ": ") s).2 = some .indexError)
      ∧ (s ≠ "" →
          (std_io_branch (fmtFixed 3 (msOf (ts - t0)) ++ ": ") s).2 = none
          ∧ ((std_io_branch (fmtFixed 3 (msOf (ts - t0)) ++ ": ") s).1.map String.data).flatten =
              (fmtFixed 3 (msOf (ts - t0)) ++ ": ").data ++ s.data
                ++ (if s.data.getLast? = some '\n' then [] else ['\n'])
          ∧ (((std_io_branch (fmtFixed 3 (msOf (ts - t0)) ++ ": ") s).1.map
              String.data).flatten).getLast? = some '\n'
          ∧ (fmtFixed 3 (msOf (ts - t0)) ++ ": ").data <+:
              ((std_io_branch (fmtFixed 3 (msOf (ts - t0)) ++ ": ") s).1.map
                String.data).flatten) := by
  intro t0 ts s
  constructor
  · intro h
    subst h
    rfl
  · intro h
    have hd : s.data ≠ [] := fun hnil => h (String.ext (hnil.trans rfl))
    rcases hl : s.data.getLast? with _ | c
    · exact absurd (List.getLast?_eq_none_iff.mp hl) hd
    by_cases hc : c = '\n'
    · subst hc
      refine ⟨by simp [std_io_branch, hl], ?_, ?_, ?_⟩
      · simp [std_io_branch, hl]
      · have h2 := getLast?_cons_some ' ' hl
        simp [std_io_branch, hl, List.getLast?_append, h2]
      · simp only [std_io_branch, hl, if_pos rfl]
        simp
    · refine ⟨by simp [std_io_branch, hl, hc], ?_, ?_, ?_⟩
      · simp [std_io_branch, hl, hc]
      · have h1 : (s.data ++ [Char.ofNat 10]).getLast? = some (Char.ofNat 10) := by
          simp [List.getLast?_append]
        have h2 := getLast?_cons_some ' ' h1
        simp only [show ('\n' : Char) = Char.ofNat 10 from rfl] at hl hc ⊢
        simp [std_io_branch, hl, hc, List.getLast?_append, h2]
      · simp only [std_io_branch, hl, if_neg hc]
        simp

/-- C10 witness: at start time 0 and event time 10000 µs, a newline-ended
relayed string passes through unchanged, and a string without a trailing
newline still yields console text ending in one. -/
theorem c10_std_io_branch_newline_witness :
    (std_io_branch (fmtFixed 3 (msOf (10000 - 0)) ++ ": ") "boot\n").2 = none
    ∧ (((std_io_branch (fmtFixed 3 (msOf (10000 - 0)) ++ ": ") "hi").1.map
        String.data).flatten).getLast? = some '\n' :=
  ⟨((c10_std_io_branch_newline_terminated 0 10000 "boot\n").2 (by decide)).1,
   ((c10_std_io_branch_newline_terminated 0 10000 "hi").2 (by decide)).2.2.1⟩

end EDBConsole

